import Mathlib

/-!
Shallow embedding of the production-record backend
(`src/backend/app/api/routes/produccion.py`, `src/backend/app/api/routes/auth.py`
and the SQLAlchemy models under `src/backend/app/models/`).

Conventions of the embedding:
* Database tables are Lean lists; `query(...).filter(p).first()` is `List.find?` and
  `.all()` enumerates the filtered list; `order_by` is a `mergeSort` by the column.
* SQL `DATE` values are encoded as `Nat` day numbers.  MySQL's zero date
  `"0000-00-00"` sorts strictly below every real date, so it is encoded as `0`
  (`zeroDate`) and real dates are positive.
* Python's character classes are modelled over a documented Unicode repertoire
  (`pyCharDecimalVal`, `pyCharIsDigit`): `str.isdigit()` (`pyIsdigit`) also accepts
  digit characters that are not decimal — superscripts and subscripts — on which
  `int()` (`pyInt`, fallible) raises `ValueError`; `int()` does parse non-ASCII
  decimal digits.  This is the distinction the `isdigit()` guard in
  `produccion.py` is sensitive to.
* HTTP-level failure (`HTTPException`) and Python runtime faults are the `.error`
  side of `Except`.
* Structure fields keep the source column names; columns never read by the
  embedded routes are omitted.
-/

namespace Registro

/-- MySQL zero date `"0000-00-00"`: it sorts strictly below every real date. -/
def zeroDate : Nat := 0

/-- Row of `moviles_operadores` (`app/models/movil_operador.py`). -/
structure MovilOperador where
  id : Int
  operador_id : Int
  movil_id : String
  desde : Nat
  hasta : Nat
deriving DecidableEq

/-- Row of `moviles` (`app/models/movil.py`); columns read by the routes. -/
structure Movil where
  idMovil : Int
  Patente : String
  Detalle : String
  idChofer : Int
  activo : Int
deriving DecidableEq

/-- Row of `personal` (`app/models/personal.py`); columns read by the routes. -/
structure Personal where
  idPersonal : Int
  Nombre : String
  unidad_negocio : Int
  activo : Int
  encargado : Int
  tipo_de_proceso_id : Option Int
  dni : Option String
  password : Option String
deriving DecidableEq

/-- Row of `rodales` (`app/models/ubicacion.py`). -/
structure Rodal where
  idRodal : Int
  Rodal : String
  idPredio : Int
deriving DecidableEq

/-- `MovilResponse` (`app/schemas/produccion.py`). -/
structure MovilResponse where
  idMovil : Int
  patente : String
  detalle : String
  idChofer : Int
deriving DecidableEq

/-- `OperadorResponse` (`app/schemas/produccion.py`). -/
structure OperadorResponse where
  idPersonal : Int
  nombre : String
  dni : Option String
  encargado : Int
  tipo_de_proceso_id : Option Int
deriving DecidableEq

/-- `RodalResponse` (`app/schemas/produccion.py`). -/
structure RodalResponse where
  idRodal : Int
  rodal : String
  idPredio : Int
deriving DecidableEq

/-- The database state visible to the embedded routes. -/
structure DB where
  personal : List Personal
  moviles : List Movil
  moviles_operadores : List MovilOperador
  rodales : List Rodal
deriving DecidableEq

/-- Unicode decimal-digit (category Nd) value of a character — the characters
`int()` parses.  The repertoire modelled is ASCII `0-9`, Arabic-Indic `٠-٩`
(U+0660-0669) and Devanagari `०-९` (U+0966-096F); characters outside it are
treated as non-digits. -/
def pyCharDecimalVal (c : Char) : Option Nat :=
  let n := c.toNat
  if 48 ≤ n ∧ n ≤ 57 then some (n - 48)
  else if 1632 ≤ n ∧ n ≤ 1641 then some (n - 1632)
  else if 2406 ≤ n ∧ n ≤ 2415 then some (n - 2406)
  else none

/-- Python's per-character digit property, as `str.isdigit()` tests it: every
decimal digit, plus digit characters that are *not* decimal — within the
modelled repertoire the superscripts `¹ ² ³` (U+00B9, U+00B2, U+00B3),
`⁰ ⁴-⁹` (U+2070, U+2074-2079) and the subscripts `₀-₉` (U+2080-2089).
On these `isdigit()` answers true although `int()` raises. -/
def pyCharIsDigit (c : Char) : Bool :=
  (pyCharDecimalVal c).isSome
  || c == '¹' || c == '²' || c == '³'
  || c.toNat == 8304 || decide (8308 ≤ c.toNat ∧ c.toNat ≤ 8313)
  || decide (8320 ≤ c.toNat ∧ c.toNat ≤ 8329)

/-- Python `str.isdigit()`: nonempty and every character has the digit
property. -/
def pyIsdigit (s : String) : Bool :=
  !s.data.isEmpty && s.data.all pyCharIsDigit

/-- Python `str.isdecimal()`: nonempty and every character a decimal digit —
exactly the digit strings `int()` accepts. -/
def pyIsdecimal (s : String) : Bool :=
  !s.data.isEmpty && s.data.all (fun c => (pyCharDecimalVal c).isSome)

/-- Decimal value of an all-decimal string. -/
def pyDigitsVal (s : String) : Int :=
  s.data.foldl (fun acc c => acc * 10 + (((pyCharDecimalVal c).getD 0 : Nat) : Int)) 0

/-- Python `int(s)` at the guarded call site: succeeds with the decimal value
exactly on all-decimal strings and raises `ValueError` (`.error`) on every
other digit string — in particular on digit-but-not-decimal strings such as
`"²"`, which pass the `isdigit()` guard.  (Sign/whitespace forms of `int()`
never reach this call site: they fail `isdigit()`.) -/
def pyInt (s : String) : Except Unit Int :=
  if pyIsdecimal s then .ok (pyDigitsVal s) else .error ()

/-- The assignment-validity filter of `get_movil_by_operador` (produccion.py:97-101):
`operador_id` matches, `desde <= today`, and (`hasta >= today` or `hasta` is the
zero-date sentinel). -/
def asignacionValida (operador_id : Int) (today : Nat) (a : MovilOperador) : Bool :=
  a.operador_id == operador_id && decide (a.desde ≤ today)
    && (decide (a.hasta ≥ today) || a.hasta == zeroDate)

/-- Step 1 of `get_movil_by_operador` (produccion.py:95-103): first assignment row
passing the validity filter. -/
def findAsignacion (db : DB) (operador_id : Int) (today : Nat) : Option MovilOperador :=
  db.moviles_operadores.find? (asignacionValida operador_id today)

/-- Step 2 of `get_movil_by_operador` (produccion.py:106-118): resolve the
assignment's `movil_id` string against active vehicles, matching the plate
exactly, or — only when the string is all digits — the integer `idMovil`.
The `int(...)` conversion is performed once, while the query clause is built,
and only under the `isdigit()` guard; an unguarded conversion would raise,
which the `Except` layer records. -/
def resolveMovilDeAsignacion (db : DB) (asignacion : MovilOperador) :
    Except Unit (Option Movil) :=
  match (if pyIsdigit asignacion.movil_id then
           (pyInt asignacion.movil_id).map (fun n => fun m => m.idMovil == n)
         else .ok (fun _ => false) : Except Unit (Movil → Bool)) with
  | .error e => .error e
  | .ok idClause =>
      .ok (db.moviles.find? (fun m =>
            (m.Patente == asignacion.movil_id || idClause m) && m.activo == 1))

/-- Step 3 of `get_movil_by_operador` (produccion.py:128-132): fallback lookup by
`moviles.idChofer`, active vehicles only. -/
def movilByChofer (db : DB) (operador_id : Int) : Option Movil :=
  db.moviles.find? (fun m => m.idChofer == operador_id && m.activo == 1)

def movilToResponse (m : Movil) : MovilResponse :=
  ⟨m.idMovil, m.Patente, m.Detalle, m.idChofer⟩

/-- `GET /produccion/movil-by-operador/{operador_id}` (produccion.py:90-141). -/
def get_movil_by_operador (db : DB) (operador_id : Int) (today : Nat) :
    Except Unit (Option MovilResponse) :=
  match findAsignacion db operador_id today with
  | some asignacion =>
      match resolveMovilDeAsignacion db asignacion with
      | .error e => .error e
      | .ok (some movil) => .ok (some (movilToResponse movil))
      | .ok none => .ok ((movilByChofer db operador_id).map movilToResponse)
  | none => .ok ((movilByChofer db operador_id).map movilToResponse)

/-- Insertion step of the `order_by` model. -/
def insertSorted (le : α → α → Bool) (x : α) : List α → List α
  | [] => [x]
  | y :: ys => if le x y then x :: y :: ys else y :: insertSorted le x ys

/-- SQL `ORDER BY` on a column, modelled as a stable insertion sort by the
column's order. -/
def sortBy (le : α → α → Bool) : List α → List α
  | [] => []
  | x :: xs => insertSorted le x (sortBy le xs)

/-- `GET /produccion/rodales` (produccion.py:161-170).  The filter is applied only
when `predio_id` is truthy in Python, i.e. present and nonzero. -/
def list_rodales (predio_id : Option Int) (db : DB) : List RodalResponse :=
  let base : List Rodal := db.rodales
  let query : List Rodal :=
    match predio_id with
    | some x => if x != 0 then base.filter (fun r => r.idPredio == x) else base
    | none => base
  (sortBy (fun a b => decide (a.Rodal ≤ b.Rodal)) query).map
    (fun r => ⟨r.idRodal, r.Rodal, r.idPredio⟩)

/-- `GET /produccion/operadores` (produccion.py:31-46).  Active rows, optionally
filtered by business unit when `un_id` is truthy. -/
def list_operadores (un_id : Option Int) (db : DB) : List OperadorResponse :=
  let base : List Personal := db.personal.filter (fun p => p.activo == 1)
  let query : List Personal :=
    match un_id with
    | some x => if x != 0 then base.filter (fun p => p.unidad_negocio == x) else base
    | none => base
  (sortBy (fun a b => decide (a.Nombre ≤ b.Nombre)) query).map
    (fun r => ⟨r.idPersonal, r.Nombre, r.dni, r.encargado, r.tipo_de_proceso_id⟩)

/-- Payload `TableroProduccionCreate` (`app/schemas/produccion.py`).  Dates are
`Nat` day numbers; SQL float columns are carried opaquely as `Float` (the writer
never computes with them). -/
structure TableroProduccionCreate where
  UN : String
  operacion : String
  fecha : Nat
  equipo : String
  operador : String
  cod_operador : Int
  cod_equipo : Int
  cod_un : Option Int
  hr_inicio : Float
  hr_fin : Float
  combustible : Int
  aceite_cadena : Int
  acta : String
  rodal : String
  predio : String
  m3 : Int
  carros : Int
  tn_despachadas : Float
  has : Float
  produccion : Float
  plantas : Int
  mtrs_recorridos : Int
  km_carreteo : Float
  km_perfilado : Float
  hr_disposicion : Float
  hrs_no_op : Int
  motivo_no_op : String
  observaciones : String
  unidad_produccion : String

/-- Row of `tablero_produccion`.  The model file `app/models/produccion.py` is not
in the source tree; its columns are reconstructed from the constructor call in
`create_produccion` (produccion.py:180-213): the payload columns plus `id`,
`fecha_hora` (creation timestamp, a `Nat` instant) and `origen`. -/
structure TableroProduccion where
  id : Int
  UN : String
  operacion : String
  fecha : Nat
  equipo : String
  operador : String
  cod_operador : Int
  cod_equipo : Int
  cod_un : Option Int
  hr_inicio : Float
  hr_fin : Float
  combustible : Int
  aceite_cadena : Int
  acta : String
  rodal : String
  predio : String
  m3 : Int
  carros : Int
  tn_despachadas : Float
  has : Float
  produccion : Float
  plantas : Int
  mtrs_recorridos : Int
  km_carreteo : Float
  km_perfilado : Float
  hr_disposicion : Float
  hrs_no_op : Int
  motivo_no_op : String
  observaciones : String
  unidad_produccion : String
  fecha_hora : Nat
  origen : String

/-- SQL `SELECT MAX(id) FROM tablero_produccion` as `.scalar()` returns it:
`none` (NULL) on an empty table, otherwise the maximum. -/
def maxIdScalar (t : List TableroProduccion) : Option Int :=
  (t.map (fun r => r.id)).max?

/-- Python `x or d` on an `Optional[int]`: `None` and `0` are falsy. -/
def pyOrInt (o : Option Int) (d : Int) : Int :=
  match o with
  | none => d
  | some x => if x == 0 then d else x

/-- The `registro` constructed by `create_produccion` (produccion.py:180-213):
the payload fields verbatim, the computed id, the creation timestamp, and the
fixed origin tag `"web"`. -/
def mkRegistro (new_id : Int) (data : TableroProduccionCreate) (now : Nat) :
    TableroProduccion :=
  ⟨new_id, data.UN, data.operacion, data.fecha, data.equipo, data.operador,
   data.cod_operador, data.cod_equipo, data.cod_un, data.hr_inicio, data.hr_fin,
   data.combustible, data.aceite_cadena, data.acta, data.rodal, data.predio,
   data.m3, data.carros, data.tn_despachadas, data.has, data.produccion,
   data.plantas, data.mtrs_recorridos, data.km_carreteo, data.km_perfilado,
   data.hr_disposicion, data.hrs_no_op, data.motivo_no_op, data.observaciones,
   data.unidad_produccion, now, "web"⟩

/-- `POST /produccion/` (produccion.py:174-217): read `max(id)` (`or 0`), insert
the record with `id = max + 1`, return the created record (after `refresh`)
together with the new table state. -/
def create_produccion (t : List TableroProduccion) (data : TableroProduccionCreate)
    (now : Nat) : TableroProduccion × List TableroProduccion :=
  let max_id := pyOrInt (maxIdScalar t) 0
  let new_id := max_id + 1
  let registro := mkRegistro new_id data now
  (registro, t ++ [registro])

/-- Interleaving of two `create_produccion` calls in which both requests read
`max(id)` from the same table state before either commit — the schedule the
naive `max + 1` scheme does not serialize.  Returns both created records and
the table after both commits. -/
def concurrent_create (t : List TableroProduccion) (d1 d2 : TableroProduccionCreate)
    (n1 n2 : Nat) : TableroProduccion × TableroProduccion × List TableroProduccion :=
  let id1 := pyOrInt (maxIdScalar t) 0 + 1
  let id2 := pyOrInt (maxIdScalar t) 0 + 1
  let r1 := mkRegistro id1 d1 n1
  let r2 := mkRegistro id2 d2 n2
  (r1, r2, t ++ [r1, r2])

/-- `LoginRequest` (`app/schemas/auth.py`). -/
structure LoginRequest where
  dni : String
  password : String
deriving DecidableEq

/-- `UserInfo` (`app/schemas/auth.py`).  `dni` is carried as the row's nullable
column; the route only builds it from a row whose `dni` equalled the request's. -/
structure UserInfo where
  idPersonal : Int
  nombre : String
  dni : Option String
  encargado : Int
  tipo_de_proceso_id : Option Int
deriving DecidableEq

/-- `fastapi.HTTPException` as raised by the routes. -/
structure HTTPException where
  status_code : Nat
  detail : String
deriving DecidableEq

/-- Modelled from the spec: `app/core/security.py` is absent from the source
tree; the spec (§6) treats the authentication component as an external
collaborator "issuing a bearer token", consumed as an opaque value.  Modelled
as a deterministic constructor over the claims the route passes
(`sub = str(user.idPersonal)`, `dni = user.dni`). -/
def create_access_token (sub : String) (dni : Option String) : String :=
  "token." ++ sub ++ "." ++ dni.getD ""

/-- `LoginResponse` (`app/schemas/auth.py`). -/
structure LoginResponse where
  access_token : String
  token_type : String
  user : UserInfo
deriving DecidableEq

/-- `POST /auth/login` (auth.py:11-35): first active `personal` row whose `dni`
matches; 401 when there is none or when its stored password differs from the
presented one; otherwise a token plus the user info. -/
def login (db : List Personal) (credentials : LoginRequest) :
    Except HTTPException LoginResponse :=
  match db.find? (fun u => u.dni == some credentials.dni && u.activo == 1) with
  | none => .error ⟨401, "DNI o contraseña incorrectos"⟩
  | some user =>
      if user.password != some credentials.password then
        .error ⟨401, "DNI o contraseña incorrectos"⟩
      else
        .ok ⟨create_access_token (toString user.idPersonal) user.dni, "bearer",
             ⟨user.idPersonal, user.Nombre, user.dni, user.encargado,
              user.tipo_de_proceso_id⟩⟩

/-! ### Theorems -/

/-- C3: an assignment row whose `hasta` is the zero-date sentinel `"0000-00-00"`
passes the assignment-validity filter of `get_movil_by_operador` for every
`today` at or after its `desde`. -/
theorem sentinel_hasta_is_valid (a : MovilOperador) (operador_id : Int)
    (today : Nat) (hop : a.operador_id = operador_id) (hs : a.hasta = zeroDate)
    (hd : a.desde ≤ today) :
    asignacionValida operador_id today a = true := by
  simp [asignacionValida, hop, hs, hd, zeroDate]

/-- Witness for C3 at a concrete open-ended assignment. -/
theorem sentinel_hasta_is_valid_witness :
    asignacionValida 42 10 ⟨1, 42, "ABC123", 3, zeroDate⟩ = true :=
  sentinel_hasta_is_valid ⟨1, 42, "ABC123", 3, zeroDate⟩ 42 10 rfl rfl (by decide)

/-- C4 is false of the code: the `isdigit()` guard does not make the integer
conversion fault unreachable.  The superscript `"²"` is not composed of decimal
digits, yet `"²".isdigit()` is true, so `int("²")` is evaluated while the
vehicle-query clause is built and raises `ValueError` — the endpoint faults
(HTTP 500) on an operator whose valid assignment has `movil_id = "²"`. -/
theorem movil_by_operador_conversion_fault_reachable :
    pyIsdigit "²" = true
    ∧ pyInt "²" = Except.error ()
    ∧ get_movil_by_operador ⟨[], [], [⟨1, 42, "²", 1, zeroDate⟩], []⟩ 42 5
        = Except.error () :=
  ⟨rfl, rfl, rfl⟩

/-- Inserting into a sorted list is a permutation of consing. -/
theorem insertSorted_perm (le : α → α → Bool) (x : α) (l : List α) :
    List.Perm (insertSorted le x l) (x :: l) := by
  induction l with
  | nil => exact List.Perm.refl _
  | cons y ys ih =>
      unfold insertSorted
      split
      · exact List.Perm.refl _
      · exact (ih.cons y).trans (List.Perm.swap x y ys)

/-- The `order_by` model permutes its input. -/
theorem sortBy_perm (le : α → α → Bool) (l : List α) :
    List.Perm (sortBy le l) l := by
  induction l with
  | nil => exact List.Perm.refl _
  | cons x xs ih => exact (insertSorted_perm le x (sortBy le xs)).trans (ih.cons x)

/-- C7 counterexample: with `predio_id = 0` the filter is skipped (Python
truthiness), so the endpoint returns a rodal whose `idPredio` is `5 ≠ 0` —
refuting "for every predio identifier X, only rodales with `idPredio = X`". -/
theorem list_rodales_zero_filter_counterexample :
    list_rodales (some 0) ⟨[], [], [], [⟨1, "A", 5⟩]⟩ = [⟨1, "A", 5⟩]
    ∧ (5 : Int) ≠ 0 :=
  ⟨by rfl, by decide⟩

/-- C7 (amended): for every nonzero predio identifier X, `list_rodales` returns
exactly (up to the `order_by` permutation) the rodales whose `idPredio` equals
X; with `predio_id` omitted it returns all rodales. -/
theorem list_rodales_filters_by_predio (X : Int) (hX : X ≠ 0) (db : DB) :
    List.Perm (list_rodales (some X) db)
      ((db.rodales.filter (fun r => r.idPredio == X)).map
        (fun r => ⟨r.idRodal, r.Rodal, r.idPredio⟩))
    ∧ List.Perm (list_rodales none db)
      (db.rodales.map (fun r => ⟨r.idRodal, r.Rodal, r.idPredio⟩)) := by
  constructor
  · simp only [list_rodales]
    rw [if_pos (bne_iff_ne.mpr hX)]
    exact (sortBy_perm _ _).map _
  · exact (sortBy_perm _ _).map _

/-- Witness for the amended C7 on a two-rodal table. -/
theorem list_rodales_filters_by_predio_witness :
    List.Perm (list_rodales (some 5) ⟨[], [], [], [⟨1, "A", 5⟩, ⟨2, "B", 6⟩]⟩)
      ((([⟨1, "A", 5⟩, ⟨2, "B", 6⟩] : List Rodal).filter
          (fun r => r.idPredio == 5)).map (fun r => ⟨r.idRodal, r.Rodal, r.idPredio⟩))
    ∧ List.Perm (list_rodales none ⟨[], [], [], [⟨1, "A", 5⟩, ⟨2, "B", 6⟩]⟩)
      (([⟨1, "A", 5⟩, ⟨2, "B", 6⟩] : List Rodal).map
        (fun r => ⟨r.idRodal, r.Rodal, r.idPredio⟩)) :=
  list_rodales_filters_by_predio 5 (by decide) ⟨[], [], [], [⟨1, "A", 5⟩, ⟨2, "B", 6⟩]⟩

/-- C9: a zero query parameter is falsy in Python, so `predio_id = 0` on the
rodales route and `un_id = 0` on the operadores route behave exactly as if the
filter were omitted. -/
theorem zero_query_param_is_unfiltered (db : DB) :
    list_rodales (some 0) db = list_rodales none db
    ∧ list_operadores (some 0) db = list_operadores none db :=
  ⟨rfl, rfl⟩

/-- `scalar() or 0` coincides with "the maximum, or 0 on an empty table". -/
theorem pyOrInt_maxId (o : Option Int) : pyOrInt o 0 = o.getD 0 := by
  cases o with
  | none => rfl
  | some x =>
      simp only [pyOrInt, Option.getD_some]
      split
      · next hx => exact (beq_iff_eq.mp hx).symm
      · rfl

/-- C2: `create_produccion` assigns the new record the maximum id currently
present plus one (an empty table having maximum 0, so the first record gets
id 1), returns that record, and commits it to the table. -/
theorem create_assigns_max_plus_one (t : List TableroProduccion)
    (data : TableroProduccionCreate) (now : Nat) :
    (create_produccion t data now).1.id = (maxIdScalar t).getD 0 + 1
    ∧ (create_produccion [] data now).1.id = 1
    ∧ (create_produccion t data now).1 ∈ (create_produccion t data now).2 := by
  refine ⟨?_, rfl, ?_⟩
  · show pyOrInt (maxIdScalar t) 0 + 1 = (maxIdScalar t).getD 0 + 1
    rw [pyOrInt_maxId]
  · exact List.mem_append.mpr (Or.inr (List.mem_singleton.mpr rfl))

/-- C6: under the interleaving in which both submissions read `max(id)` before
either commits, the two created records receive the same id, so the table ends
up with a duplicated id — N concurrent creates are not guaranteed N distinct
ids under the naive `max + 1` scheme. -/
theorem concurrent_create_id_collision (t : List TableroProduccion)
    (d1 d2 : TableroProduccionCreate) (n1 n2 : Nat) :
    (concurrent_create t d1 d2 n1 n2).1.id = (concurrent_create t d1 d2 n1 n2).2.1.id
    ∧ ¬ ((concurrent_create t d1 d2 n1 n2).2.2.map (fun r => r.id)).Nodup := by
  refine ⟨rfl, ?_⟩
  intro h
  have hsub : List.Sublist
      [pyOrInt (maxIdScalar t) 0 + 1, pyOrInt (maxIdScalar t) 0 + 1]
      ((concurrent_create t d1 d2 n1 n2).2.2.map (fun r => r.id)) := by
    show List.Sublist _
      ((t ++ [mkRegistro (pyOrInt (maxIdScalar t) 0 + 1) d1 n1,
              mkRegistro (pyOrInt (maxIdScalar t) 0 + 1) d2 n2]).map (fun r => r.id))
    rw [List.map_append]
    exact List.sublist_append_right _ _
  have hdup := List.Nodup.sublist hsub h
  simp at hdup

/-- Unfolding of `login` when no active row matches the dni. -/
theorem login_eq_of_no_user (db : List Personal) (cred : LoginRequest)
    (h : db.find? (fun v => v.dni == some cred.dni && v.activo == 1) = none) :
    login db cred = Except.error ⟨401, "DNI o contraseña incorrectos"⟩ := by
  unfold login
  rw [h]

/-- Unfolding of `login` when an active row matches the dni. -/
theorem login_eq_of_user (db : List Personal) (cred : LoginRequest) (u : Personal)
    (h : db.find? (fun v => v.dni == some cred.dni && v.activo == 1) = some u) :
    login db cred =
      (if u.password != some cred.password then
        Except.error ⟨401, "DNI o contraseña incorrectos"⟩
      else
        Except.ok ⟨create_access_token (toString u.idPersonal) u.dni, "bearer",
          ⟨u.idPersonal, u.Nombre, u.dni, u.encargado, u.tipo_de_proceso_id⟩⟩) := by
  unfold login
  rw [h]

/-- C8: when the presented dni matches a stored user but every stored row with
that dni has a different password, login raises 401 and returns no user object;
when the row the credential query retrieves has the matching password, login
returns an access token together with a user object whose dni equals the
request's. -/
theorem login_credential_check (db : List Personal) (cred : LoginRequest)
    (hdni : ∃ u ∈ db, u.dni = some cred.dni) :
    ((∀ u ∈ db, u.dni = some cred.dni → u.password ≠ some cred.password) →
      ∃ e, login db cred = Except.error e ∧ e.status_code = 401)
    ∧ (∀ u, db.find? (fun v => v.dni == some cred.dni && v.activo == 1) = some u →
        u.password = some cred.password →
        ∃ resp, login db cred = Except.ok resp ∧ resp.user.dni = some cred.dni
          ∧ resp.access_token = create_access_token (toString u.idPersonal) u.dni) := by
  constructor
  · intro hpw
    cases hf : db.find? (fun v => v.dni == some cred.dni && v.activo == 1) with
    | none => exact ⟨⟨401, "DNI o contraseña incorrectos"⟩,
        login_eq_of_no_user db cred hf, rfl⟩
    | some u =>
        have hpred := List.find?_some hf
        have hmem := List.mem_of_find?_eq_some hf
        simp only [Bool.and_eq_true, beq_iff_eq] at hpred
        refine ⟨⟨401, "DNI o contraseña incorrectos"⟩, ?_, rfl⟩
        rw [login_eq_of_user db cred u hf,
          if_pos (bne_iff_ne.mpr (hpw u hmem hpred.1))]
  · intro u hf hpw
    have hpred := List.find?_some hf
    simp only [Bool.and_eq_true, beq_iff_eq] at hpred
    refine ⟨⟨create_access_token (toString u.idPersonal) u.dni, "bearer",
      ⟨u.idPersonal, u.Nombre, u.dni, u.encargado, u.tipo_de_proceso_id⟩⟩,
      ?_, hpred.1, rfl⟩
    rw [login_eq_of_user db cred u hf, if_neg (by simp [hpw])]

/-- Witness for C8: a successful login on a one-user table. -/
theorem login_credential_check_witness :
    ∃ resp,
      login [⟨1, "Ana", 1, 1, 0, none, some "123", some "pw"⟩] ⟨"123", "pw"⟩
        = Except.ok resp
      ∧ resp.user.dni = some "123"
      ∧ resp.access_token = create_access_token (toString (1 : Int)) (some "123") :=
  (login_credential_check [⟨1, "Ana", 1, 1, 0, none, some "123", some "pw"⟩]
      ⟨"123", "pw"⟩
      ⟨⟨1, "Ana", 1, 1, 0, none, some "123", some "pw"⟩, List.Mem.head _, rfl⟩).2
    ⟨1, "Ana", 1, 1, 0, none, some "123", some "pw"⟩ (by rfl) rfl

/-- C10: a request whose dni and password both match the (unique) stored row
with that dni is still rejected with 401 when that row's `activo` flag is not
1 — only active personnel can authenticate. -/
theorem inactive_user_cannot_login (db : List Personal) (cred : LoginRequest)
    (u : Personal) (hu : u ∈ db) (hdni : u.dni = some cred.dni)
    (hpw : u.password = some cred.password) (hact : u.activo ≠ 1)
    (huniq : ∀ v ∈ db, v.dni = some cred.dni → v = u) :
    ∃ e, login db cred = Except.error e ∧ e.status_code = 401 := by
  have hnone : db.find? (fun v => v.dni == some cred.dni && v.activo == 1) = none := by
    rw [List.find?_eq_none]
    intro v hv
    simp only [Bool.and_eq_true, beq_iff_eq, not_and]
    intro hvd hva
    exact hact ((huniq v hv hvd) ▸ hva)
  exact ⟨⟨401, "DNI o contraseña incorrectos"⟩, login_eq_of_no_user db cred hnone, rfl⟩

/-- Witness for C10: matching credentials on an inactive row are rejected. -/
theorem inactive_user_cannot_login_witness :
    ∃ e, login [⟨2, "Bob", 1, 0, 0, none, some "456", some "pw"⟩] ⟨"456", "pw"⟩
        = Except.error e ∧ e.status_code = 401 :=
  inactive_user_cannot_login [⟨2, "Bob", 1, 0, 0, none, some "456", some "pw"⟩]
    ⟨"456", "pw"⟩ ⟨2, "Bob", 1, 0, 0, none, some "456", some "pw"⟩
    (List.Mem.head _) rfl rfl (by decide)
    (fun v hv _ => by
      cases hv with
      | head => rfl
      | tail _ h => exact absurd h (List.not_mem_nil v))

end Registro
